import Mathlib

/-!
Shallow embedding of the catalog cache and delivery subsystem of
`src/bot.py` (movie cache refresh, staleness check, term search,
two-tier delivery with failure classification, batch dispatch,
duplicate detection, and the query-length guards), together with
theorems settling the specification's claims about it.
-/

namespace Filmzy

/-- One cached catalog entry, as built by `refresh_movie_cache` from a row of
the `movies` table (`title, message_id, category, file_id, media_type`).
`id` is the archive-channel `message_id`; `media_type` has already had the
`row[4] or 'document'` default applied. -/
structure Movie where
  title : String
  id : Int
  category : String
  file_id : Option String
  media_type : String
deriving Repr, DecidableEq

/-- Raw row of the `movies` table as returned by the store read in
`refresh_movie_cache` (`SELECT title, message_id, category, file_id,
media_type FROM movies`). -/
structure Row where
  title : String
  message_id : Int
  category : String
  file_id : Option String
  media_type : Option String
deriving Repr, DecidableEq

/-- Python truthiness default `row[4] or 'document'`: both `None` and the
empty string are falsy and yield `'document'`. -/
def mediaTypeOrDefault : Option String → String
  | none => "document"
  | some s => if s.isEmpty then "document" else s

/-- Dict built per row inside `refresh_movie_cache`. -/
def rowToMovie (r : Row) : Movie :=
  { title := r.title, id := r.message_id, category := r.category,
    file_id := r.file_id, media_type := mediaTypeOrDefault r.media_type }

/-- The two module-level cache globals `movie_cache` and
`last_cache_refresh` (timestamps modelled in whole seconds). -/
structure CacheState where
  movie_cache : List Movie
  last_cache_refresh : Int
deriving Repr, DecidableEq

/-- Embedding of `refresh_movie_cache`.  The store read is passed in as
`readResult`; `Except.error` models a `sqlite3.Error` raised by
`connect`/`execute`/`fetchall`, all of which happen in the source before
either global is assigned.  On success both globals are replaced and `True`
is returned; on error the `except` branch returns `False` having mutated
nothing. -/
def refresh_movie_cache (st : CacheState) (readResult : Except String (List Row))
    (now : Int) : CacheState × Bool :=
  match readResult with
  | Except.error _ => (st, false)
  | Except.ok rows =>
      ({ movie_cache := rows.map rowToMovie, last_cache_refresh := now }, true)

/-- `CACHE_REFRESH_INTERVAL = 300  # 5 minutes`. -/
def CACHE_REFRESH_INTERVAL : Nat := 300

/-- The `.seconds` attribute of a non-negative Python `timedelta` measured in
whole seconds: `timedelta` normalises to `(days, seconds, microseconds)`
with `0 <= seconds < 86400`, so `.seconds` is the elapsed time modulo one
day, not the total elapsed seconds. -/
def timedeltaSeconds (elapsed : Nat) : Nat := elapsed % 86400

/-- The staleness test shared by every read path
(`show_category_movies`, `list_all_movies`, `search_and_send_movies`,
`inline_query_handler`):
`(datetime.now() - last_cache_refresh).seconds > CACHE_REFRESH_INTERVAL`,
with `elapsed = now - last_cache_refresh` in whole seconds. -/
def cacheNeedsRefresh (elapsed : Nat) : Bool :=
  CACHE_REFRESH_INTERVAL < timedeltaSeconds elapsed

/-- Modelled from the spec's words, for comparison with `cacheNeedsRefresh`:
"a snapshot is stale when `now - refreshedAt` exceeds a fixed interval
(default 300 seconds)". -/
def is_stale_spec (elapsed : Nat) : Bool :=
  CACHE_REFRESH_INTERVAL < elapsed

/-- Lower-case a string character-wise, as Python `str.lower()` does on the
ASCII titles and queries involved. -/
def lowerStr (s : List Char) : List Char := s.map Char.toLower

/-- Helper for `splitWs`: accumulates the current word (reversed). -/
def splitWsAux : List Char → List Char → List (List Char)
  | [], acc => if acc.isEmpty then [] else [acc.reverse]
  | c :: rest, acc =>
      if c.isWhitespace then
        if acc.isEmpty then splitWsAux rest []
        else acc.reverse :: splitWsAux rest []
      else splitWsAux rest (c :: acc)

/-- Python `str.split()` with no argument: split on runs of whitespace,
discarding empty pieces. -/
def splitWs (s : List Char) : List (List Char) := splitWsAux s []

/-- Character-list analogue of Python string slicing equality used by `in`. -/
def startsWithCh : List Char → List Char → Bool
  | [], _ => true
  | _ :: _, [] => false
  | a :: as, b :: bs => a == b && startsWithCh as bs

/-- Python's substring operator `needle in haystack` (empty needle is always
contained). -/
def containsTerm (needle : List Char) : List Char → Bool
  | [] => needle.isEmpty
  | c :: rest => startsWithCh needle (c :: rest) || containsTerm needle rest

/-- `search_terms = query.lower().split()`. -/
def queryTerms (q : String) : List (List Char) := splitWs (lowerStr q.toList)

/-- The per-movie test of the search loop:
`any(term in title_lower for term in search_terms)`. -/
def movieMatches (terms : List (List Char)) (m : Movie) : Bool :=
  terms.any (fun t => containsTerm t (lowerStr m.title.toList))

/-- The search loop of `search_and_send_movies` (identical in
`inline_query_handler`): iterate the cache in order, appending each movie
whose lowered title contains some search term. -/
def searchMovies (cache : List Movie) (q : String) : List Movie :=
  cache.foldl (fun acc m => if movieMatches (queryTerms q) m then acc ++ [m] else acc) []

/-- Exception classes a transport call can raise, as the source
distinguishes them: `telegram.error.BadRequest` (raised e.g. for a deleted
source message, a malformed request, or "chat not found"),
`telegram.error.Forbidden` (bot blocked / can't initiate the chat), and any
other exception (e.g. `RetryAfter` rate limiting). -/
inductive TgErrClass
  | badRequest
  | forbidden
  | otherExc
deriving Repr, DecidableEq

/-- The two user-visible failure texts `send_movie_to_user` can send to
`chat_id`: the start-a-private-chat link
(`"Please start a private chat with me first: https://t.me/..."`) and the
generic `"Failed to send movie. Please try again later."`. -/
inductive UserMsg
  | privateLink
  | genericFailure
deriving Repr, DecidableEq

/-- Observable behaviour of one `send_movie_to_user` call: its return value
and which transport interactions happened. -/
structure SendTrace where
  returned : Bool
  fastAttempted : Bool
  fallbackAttempted : Bool
  userMsg : Option UserMsg
deriving Repr, DecidableEq

/-- Python truthiness of `movie.get('file_id')`: `None` and `""` are falsy. -/
def truthyFileId : Option String → Bool
  | none => false
  | some s => !s.isEmpty

/-- Shared tail of `send_movie_to_user`: the `forward_message` fallback and
its error handling.  `BadRequest` and `Forbidden` are caught by the inner
`except (BadRequest, Forbidden)` clause, which sends the
start-a-private-chat link when a `chat_id` was supplied; any other exception
escapes to the outer `except Exception`, which sends the generic failure
text when a `chat_id` was supplied.  Both failure paths return `False`. -/
def fallbackStep (chat_id : Option Int) (fallbackResult : Option TgErrClass)
    (fastTried : Bool) : SendTrace :=
  match fallbackResult with
  | none =>
      { returned := true, fastAttempted := fastTried,
        fallbackAttempted := true, userMsg := none }
  | some TgErrClass.badRequest =>
      { returned := false, fastAttempted := fastTried, fallbackAttempted := true,
        userMsg := chat_id.map (fun _ => UserMsg.privateLink) }
  | some TgErrClass.forbidden =>
      { returned := false, fastAttempted := fastTried, fallbackAttempted := true,
        userMsg := chat_id.map (fun _ => UserMsg.privateLink) }
  | some TgErrClass.otherExc =>
      { returned := false, fastAttempted := fastTried, fallbackAttempted := true,
        userMsg := chat_id.map (fun _ => UserMsg.genericFailure) }

/-- Embedding of `send_movie_to_user`.  `fastResult` is the outcome the
`send_video`/`send_document` fast path would have (`none` = success), and
`fallbackResult` the outcome of `forward_message`; each is consulted only if
the corresponding call is actually made.  The movie is looked up with
`next((m for m in movie_cache if m['id'] == movie_id), None)`; a miss
returns `False` at once.  A fast-path exception is swallowed
(`except Exception` around the `file_id` send only logs) and control falls
through to the fallback. -/
def send_movie_to_user (cache : List Movie) (movie_id : Int)
    (chat_id : Option Int) (fastResult : Option TgErrClass)
    (fallbackResult : Option TgErrClass) : SendTrace :=
  match cache.find? (fun m => m.id == movie_id) with
  | none =>
      { returned := false, fastAttempted := false,
        fallbackAttempted := false, userMsg := none }
  | some movie =>
      if truthyFileId movie.file_id then
        match fastResult with
        | none =>
            { returned := true, fastAttempted := true,
              fallbackAttempted := false, userMsg := none }
        | some _ => fallbackStep chat_id fallbackResult true
      else
        fallbackStep chat_id fallbackResult false

/-- Observable behaviour of the dispatch loop at the end of
`search_and_send_movies`. -/
structure BatchResult where
  attempted : List Movie
  sent_count : Nat
  aggregateMsgSent : Bool
deriving Repr, DecidableEq

/-- The dispatch loop of `search_and_send_movies`: iterate
`results[:10]`, call `send_movie_to_user` for each (its success modelled by
the oracle `succ`), count successes in `sent_count`, and send the aggregate
"Could not send any movies" message iff `sent_count == 0`. -/
def sendBatch (results : List Movie) (succ : Movie → Bool) : BatchResult :=
  let final := (results.take 10).foldl
    (fun (st : List Movie × Nat) m =>
      (st.1 ++ [m], if succ m then st.2 + 1 else st.2))
    ([], 0)
  { attempted := final.1, sent_count := final.2,
    aggregateMsgSent := final.2 == 0 }

/-- `COUNT(*)` for one title group: the number of store rows carrying
exactly that (case-sensitive) title. -/
def countTitle (rows : List (String × Int)) (t : String) : Nat :=
  rows.countP (fun r => r.1 == t)

/-- Distinct titles in first-occurrence order (the grouping keys of
`GROUP BY title` under SQLite's default BINARY collation: exact,
case-sensitive comparison, no normalisation). -/
def dedupFirst (l : List String) : List String :=
  l.foldl (fun acc t => if acc.contains t then acc else acc ++ [t]) []

/-- Embedding of `find_duplicate_movies`'s query
`SELECT title, COUNT(*) FROM movies GROUP BY title HAVING count > 1`,
applied to the `(title, message_id)` rows of the store. -/
def find_duplicate_movies (rows : List (String × Int)) : List (String × Nat) :=
  ((dedupFirst (rows.map Prod.fst)).map (fun t => (t, countTitle rows t))).filter
    (fun g => decide (1 < g.2))

/-- Outcome of `handle_message` on a text message. -/
inductive MsgAction
  | ignored
  | prompt
  | search (q : String)
deriving Repr, DecidableEq

/-- Python `text.startswith('/')`. -/
def textStartsWithSlash (t : String) : Bool :=
  match t.toList with
  | [] => false
  | c :: _ => c == '/'

/-- Embedding of `handle_message`: slash texts are ignored, texts of length
at least 2 go to `search_and_send_movies`, anything shorter gets the
"Please enter at least 2 characters to search." prompt. -/
def handle_message (text : String) : MsgAction :=
  if textStartsWithSlash text then MsgAction.ignored
  else if 2 ≤ text.length then MsgAction.search text
  else MsgAction.prompt

/-- Outcome of `inline_query_handler` on an inline query. -/
inductive InlineAction
  | noAnswer
  | search (q : String)
deriving Repr, DecidableEq

/-- Embedding of the guard of `inline_query_handler`:
`if not query or len(query) < 2: return` before any cache access. -/
def inline_query_handler (q : String) : InlineAction :=
  if q.isEmpty || q.length < 2 then InlineAction.noAnswer
  else InlineAction.search q

/-- True exactly on the `search` constructor of `MsgAction`. -/
def msgIsSearch : MsgAction → Bool
  | MsgAction.search _ => true
  | _ => false

/-- First demo entry of the spec's search example. -/
def demoInception : Movie :=
  { title := "Inception", id := 1, category := "Sci-Fi",
    file_id := none, media_type := "document" }

/-- Second demo entry of the spec's search example. -/
def demoMatrix : Movie :=
  { title := "The Matrix", id := 2, category := "Sci-Fi",
    file_id := none, media_type := "document" }

/-- Third demo entry of the spec's search example. -/
def demoReloaded : Movie :=
  { title := "Matrix Reloaded", id := 3, category := "Sci-Fi",
    file_id := none, media_type := "document" }

/-- The spec's three-entry demo snapshot, in insertion order. -/
def demoCache : List Movie := [demoInception, demoMatrix, demoReloaded]

/-- Demo entry carrying a content reference, for delivery witnesses. -/
def demoWithFile : Movie :=
  { title := "Dune", id := 42, category := "Sci-Fi",
    file_id := some "FILEID", media_type := "video" }

/-- Demo legacy entry without a content reference, for delivery witnesses. -/
def demoNoFile : Movie :=
  { title := "Heat", id := 5, category := "Action",
    file_id := none, media_type := "document" }

/-!
Helper lemmas shared by the claim theorems below.
-/

/-- Appending matches one at a time in a left fold is the same as filtering:
the shape of the search loops in `search_and_send_movies` and
`inline_query_handler`. -/
theorem foldl_append_eq_filter (p : Movie → Bool) (l acc : List Movie) :
    l.foldl (fun a m => if p m then a ++ [m] else a) acc = acc ++ l.filter p := by
  induction l generalizing acc with
  | nil => simp
  | cons m rest ih =>
    cases hp : p m <;> simp [List.foldl_cons, List.filter_cons, hp, ih]

/-- Closed form of the dispatch loop fold of `search_and_send_movies`. -/
theorem foldl_batch_eq (succ : Movie → Bool) (l : List Movie) (acc : List Movie) (c : Nat) :
    l.foldl (fun (st : List Movie × Nat) m =>
        (st.1 ++ [m], if succ m then st.2 + 1 else st.2)) (acc, c)
      = (acc ++ l, c + l.countP succ) := by
  induction l generalizing acc c with
  | nil => simp
  | cons m rest ih =>
    simp only [List.foldl_cons]
    cases hs : succ m
    · simp [ih, List.countP_cons, hs]
    · simp [ih, List.countP_cons, hs]
      omega

/-- Membership in the first-occurrence deduplication fold. -/
theorem mem_dedup_foldl (l : List String) (acc : List String) (t : String) :
    (t ∈ l.foldl (fun a s => if a.contains s then a else a ++ [s]) acc)
      ↔ t ∈ acc ∨ t ∈ l := by
  induction l generalizing acc with
  | nil => simp
  | cons s rest ih =>
    simp only [List.foldl_cons]
    cases hc : acc.contains s
    · rw [if_neg (by simp)]
      rw [ih]
      simp [List.mem_append]
      tauto
    · rw [if_pos rfl]
      rw [ih]
      have hs : s ∈ acc := by simpa using hc
      simp only [List.mem_cons]
      constructor
      · tauto
      · rintro (h | h | h)
        · exact Or.inl h
        · exact Or.inl (h ▸ hs)
        · exact Or.inr h

/-- ASCII lower-casing maps whitespace characters to themselves. -/
theorem toLower_whitespace (c : Char) (h : c.isWhitespace = true) :
    c.toLower.isWhitespace = true := by
  have hd : ((c = ' ' ∨ c = '\t') ∨ c = '\r') ∨ c = '\n' := by
    simpa [Char.isWhitespace] using h
  rcases hd with ((h | h) | h) | h <;> subst h <;> decide

/-- Splitting a purely-whitespace character list yields no terms. -/
theorem splitWsAux_all_ws (l : List Char) (h : ∀ c ∈ l, c.isWhitespace = true) :
    splitWsAux l [] = [] := by
  induction l with
  | nil => rfl
  | cons c rest ih =>
    have hc : c.isWhitespace = true := h c (by simp)
    simp only [splitWsAux, hc, if_pos, List.isEmpty_nil, ite_true]
    exact ih (fun d hd => h d (by simp [hd]))

/-- Classification performed by `fallbackStep` on each error class when a
`chat_id` is supplied. -/
theorem fallbackStep_classify (c : Int) (e : TgErrClass) (ft : Bool) :
    fallbackStep (some c) (some e) ft =
      { returned := false, fastAttempted := ft, fallbackAttempted := true,
        userMsg := some (match e with
          | TgErrClass.otherExc => UserMsg.genericFailure
          | _ => UserMsg.privateLink) } := by
  cases e <;> rfl

/-!
Claim theorems.
-/

/-- C1: the claim says the snapshot is stale, and re-read, exactly when the
elapsed time since the last refresh exceeds 300 seconds.  The code instead
compares the Python `timedelta.seconds` attribute, which wraps at one day:
at `elapsed = 86400` (a snapshot exactly one day old) every read path keeps
the stale snapshot even though the claim's staleness predicate holds. -/
theorem c1_stale_check_wraps_after_one_day :
    cacheNeedsRefresh 86400 = false ∧ is_stale_spec 86400 = true := by decide

/-- C3: a failed store read during refresh leaves the visible cache state
untouched — same snapshot, same `refreshedAt` — and reports the failure via
the returned flag rather than an exception. -/
theorem c3_failed_refresh_is_noop (st : CacheState) (e : String) (now : Int) :
    (refresh_movie_cache st (Except.error e) now).1.movie_cache = st.movie_cache
    ∧ (refresh_movie_cache st (Except.error e) now).1.last_cache_refresh
        = st.last_cache_refresh
    ∧ (refresh_movie_cache st (Except.error e) now).2 = false :=
  ⟨rfl, rfl, rfl⟩

/-- C4: search returns exactly the cache entries whose lowered title
contains at least one whitespace-split lowered query term (OR across terms,
substring not whole-word), in snapshot iteration order (the result is a
sublist of the cache, with no re-ranking); on the spec's demo cache,
query "matrix" returns entries 2 and 3 and query "in re" returns entries
1 and 3. -/
theorem c4_search_or_terms_in_order :
    (∀ (cache : List Movie) (q : String) (m : Movie),
        m ∈ searchMovies cache q
          ↔ m ∈ cache ∧ ∃ t ∈ queryTerms q,
              containsTerm t (lowerStr m.title.toList) = true)
    ∧ (∀ (cache : List Movie) (q : String), (searchMovies cache q).Sublist cache)
    ∧ searchMovies demoCache "matrix" = [demoMatrix, demoReloaded]
    ∧ searchMovies demoCache "in re" = [demoInception, demoReloaded] := by
  refine ⟨?_, ?_, by decide, by decide⟩
  · intro cache q m
    unfold searchMovies
    rw [foldl_append_eq_filter]
    simp [List.mem_filter, movieMatches, List.any_eq_true]
  · intro cache q
    unfold searchMovies
    rw [foldl_append_eq_filter]
    simp only [List.nil_append]
    exact List.filter_sublist cache

/-- C5: when the entry's content reference is present but the fast-path
send fails, the failure is swallowed (no user-visible message), the
fallback re-forward identified by `entry.id` is attempted, and a successful
fallback is reported to the caller as success. -/
theorem c5_fastpath_failure_swallowed (cache : List Movie) (mid : Int)
    (chat : Option Int) (e : TgErrClass) (m : Movie)
    (hfind : cache.find? (fun x => x.id == mid) = some m)
    (hfile : truthyFileId m.file_id = true) :
    send_movie_to_user cache mid chat (some e) none =
      { returned := true, fastAttempted := true, fallbackAttempted := true,
        userMsg := none } := by
  simp only [send_movie_to_user, hfind]
  rw [hfile, if_pos rfl]
  rfl

/-- Witness for C5 at a concrete entry with an invalid content reference. -/
theorem c5_fastpath_failure_swallowed_witness :
    ([demoWithFile].find? (fun x => x.id == (42 : Int)) = some demoWithFile)
    ∧ truthyFileId demoWithFile.file_id = true
    ∧ send_movie_to_user [demoWithFile] 42 (some 7) (some TgErrClass.otherExc) none =
        { returned := true, fastAttempted := true, fallbackAttempted := true,
          userMsg := none } :=
  ⟨by decide, by decide,
    c5_fastpath_failure_swallowed [demoWithFile] 42 (some 7) TgErrClass.otherExc
      demoWithFile (by decide) (by decide)⟩

/-- C2, counterexample: a fallback failure of class `BadRequest` — the
class Telegram raises for a deleted source message or a malformed request —
produces the start-a-private-chat link, not the generic failure message the
claim requires for every cause other than "recipient unreachable". -/
theorem c2_badrequest_gets_private_chat_link :
    (send_movie_to_user [demoNoFile] 5 (some 7) none
        (some TgErrClass.badRequest)).userMsg = some UserMsg.privateLink
    ∧ some UserMsg.privateLink ≠ some UserMsg.genericFailure := by decide

/-- C2, amended: the code classifies a fallback failure by exception class,
not cause: `BadRequest` and `Forbidden` both yield the start-a-private-chat
link in the originating chat, and only exceptions outside those two classes
(e.g. rate limiting) yield the generic failure message; either way the call
reports failure. -/
theorem c2_fallback_error_class_split (cache : List Movie) (mid : Int) (c : Int)
    (m : Movie) (fastR : Option TgErrClass) (e : TgErrClass)
    (hfind : cache.find? (fun x => x.id == mid) = some m)
    (hroute : truthyFileId m.file_id = false ∨ fastR ≠ none) :
    send_movie_to_user cache mid (some c) fastR (some e) =
      { returned := false, fastAttempted := truthyFileId m.file_id,
        fallbackAttempted := true,
        userMsg := some (match e with
          | TgErrClass.otherExc => UserMsg.genericFailure
          | _ => UserMsg.privateLink) } := by
  simp only [send_movie_to_user, hfind]
  rcases hroute with hfile | hne
  · rw [hfile, if_neg (by simp)]
    exact fallbackStep_classify c e false
  · cases fastR with
    | none => exact absurd rfl hne
    | some e0 =>
      cases hfile : truthyFileId m.file_id
      · rw [if_neg (by simp)]
        exact fallbackStep_classify c e false
      · rw [if_pos rfl]
        exact fallbackStep_classify c e true

/-- Witness for the amended C2 at a concrete legacy entry and a
`Forbidden` fallback failure. -/
theorem c2_fallback_error_class_split_witness :
    ([demoNoFile].find? (fun x => x.id == (5 : Int)) = some demoNoFile)
    ∧ (truthyFileId demoNoFile.file_id = false
        ∨ (none : Option TgErrClass) ≠ none)
    ∧ send_movie_to_user [demoNoFile] 5 (some 7) none (some TgErrClass.forbidden) =
        { returned := false, fastAttempted := truthyFileId demoNoFile.file_id,
          fallbackAttempted := true, userMsg := some UserMsg.privateLink } :=
  ⟨by decide, Or.inl (by decide),
    c2_fallback_error_class_split [demoNoFile] 5 7 demoNoFile none
      TgErrClass.forbidden (by decide) (Or.inl (by decide))⟩

/-- C6: the dispatch loop attempts delivery for exactly the first 10
results in search order whatever the per-item outcomes are (no failure
aborts later attempts), counts successes exactly, and sends the aggregate
could-not-send message iff the success count over the batch is zero. -/
theorem c6_batch_isolation_and_aggregate (results : List Movie) (succ : Movie → Bool) :
    (sendBatch results succ).attempted = results.take 10
    ∧ (sendBatch results succ).sent_count = (results.take 10).countP succ
    ∧ ((sendBatch results succ).aggregateMsgSent = true
        ↔ (sendBatch results succ).sent_count = 0) := by
  have h := foldl_batch_eq succ (results.take 10) [] 0
  simp only [sendBatch, h]
  refine ⟨by simp, by simp, ?_⟩
  simp

/-- C7: duplicate detection groups store rows by exact, case-sensitive
title with no normalisation and yields exactly the `(title, count)` pairs
with count above 1; on rows `[("A",1),("A",2),("B",3)]` it yields exactly
`("A", 2)`. -/
theorem c7_duplicates_exact_title_groups :
    (∀ (rows : List (String × Int)) (t : String) (c : Nat),
        (t, c) ∈ find_duplicate_movies rows ↔ c = countTitle rows t ∧ 1 < c)
    ∧ find_duplicate_movies [("A", 1), ("A", 2), ("B", 3)] = [("A", 2)] := by
  refine ⟨?_, by decide⟩
  intro rows t c
  unfold find_duplicate_movies
  constructor
  · intro hmem
    rcases List.mem_filter.mp hmem with ⟨hmem2, hgt⟩
    rcases List.mem_map.mp hmem2 with ⟨t', _, heq⟩
    have h1 : t' = t := congrArg Prod.fst heq
    have h2 : countTitle rows t' = c := congrArg Prod.snd heq
    subst h1
    simp only [decide_eq_true_eq] at hgt
    exact ⟨h2.symm, hgt⟩
  · rintro ⟨rfl, hgt⟩
    apply List.mem_filter.mpr
    refine ⟨?_, by simpa using hgt⟩
    apply List.mem_map.mpr
    refine ⟨t, ?_, rfl⟩
    unfold dedupFirst
    rw [mem_dedup_foldl]
    right
    have hpos : 0 < rows.countP (fun r => r.1 == t) := by
      have hc : 1 < countTitle rows t := hgt
      unfold countTitle at hc
      omega
    rcases List.countP_pos_iff.mp hpos with ⟨r, hr, hpr⟩
    exact List.mem_map.mpr ⟨r, hr, by simpa using hpr⟩

/-- C8: a non-command text shorter than 2 characters gets the
minimum-length prompt and never triggers a search, and an inline query
shorter than 2 characters is answered with nothing before the cache or the
matcher is touched. -/
theorem c8_short_query_rejected (t q : String)
    (ht : t.length < 2) (hq : q.length < 2) (hs : textStartsWithSlash t = false) :
    handle_message t = MsgAction.prompt
    ∧ msgIsSearch (handle_message t) = false
    ∧ inline_query_handler q = InlineAction.noAnswer := by
  have hnot : ¬ (2 ≤ t.length) := by omega
  unfold handle_message inline_query_handler
  rw [hs]
  simp [hnot, hq, msgIsSearch]

/-- Witness for C8 at the one-character text "a" and inline query "b". -/
theorem c8_short_query_rejected_witness :
    ("a".length < 2) ∧ ("b".length < 2) ∧ (textStartsWithSlash "a" = false)
    ∧ (handle_message "a" = MsgAction.prompt
        ∧ msgIsSearch (handle_message "a") = false
        ∧ inline_query_handler "b" = InlineAction.noAnswer) :=
  ⟨by decide, by decide, by decide,
    c8_short_query_rejected "a" "b" (by decide) (by decide) (by decide)⟩

/-- C10: a query that passes the 2-character minimum but is all whitespace
splits into no terms, so the search matches no entry and returns the empty
list (taking the no-results branch), rather than matching everything. -/
theorem c10_whitespace_query_empty (cache : List Movie) (q : String)
    (hlen : 2 ≤ q.length) (hws : q.toList.all Char.isWhitespace = true) :
    searchMovies cache q = [] := by
  clear hlen
  have hterms : queryTerms q = [] := by
    unfold queryTerms splitWs
    apply splitWsAux_all_ws
    intro ch hch
    rcases List.mem_map.mp hch with ⟨d, hd, rfl⟩
    exact toLower_whitespace d (List.all_eq_true.mp hws d hd)
  unfold searchMovies
  rw [foldl_append_eq_filter]
  simp [hterms, movieMatches]

/-- Witness for C10 at the two-space query on the demo cache. -/
theorem c10_whitespace_query_empty_witness :
    (2 ≤ "  ".length) ∧ ("  ".toList.all Char.isWhitespace = true)
    ∧ searchMovies demoCache "  " = [] :=
  ⟨by decide, by decide,
    c10_whitespace_query_empty demoCache "  " (by decide) (by decide)⟩

/-- C9: an entry id absent from the snapshot makes delivery fail
immediately: `False` is returned with no fast-path attempt, no fallback
attempt, and no message sent. -/
theorem c9_missing_id_no_transport (cache : List Movie) (mid : Int)
    (chat : Option Int) (fastR fallR : Option TgErrClass)
    (h : mid ∉ cache.map Movie.id) :
    send_movie_to_user cache mid chat fastR fallR =
      { returned := false, fastAttempted := false, fallbackAttempted := false,
        userMsg := none } := by
  have hfind : cache.find? (fun x => x.id == mid) = none := by
    rw [List.find?_eq_none]
    intro x hx hbeq
    exact h (List.mem_map.mpr ⟨x, hx, by simpa using hbeq⟩)
  simp only [send_movie_to_user, hfind]

/-- Witness for C9 at id 99, absent from the demo cache. -/
theorem c9_missing_id_no_transport_witness :
    ((99 : Int) ∉ demoCache.map Movie.id)
    ∧ send_movie_to_user demoCache 99 (some 7) none none =
        { returned := false, fastAttempted := false, fallbackAttempted := false,
          userMsg := none } :=
  ⟨by decide, c9_missing_id_no_transport demoCache 99 (some 7) none none (by decide)⟩

end Filmzy
